import Mathlib

/-!
Shallow embedding of `src/VishalSecond/analyze_catalog_compatibility.py`
(the ServiceNow catalog compatibility aggregator) and proofs of the
specification's claims about it.

Modelling conventions:
* A variable record's missing `catalog_sys_id` or missing `field.type`
  is modelled as the empty string, exactly as the Python source reads
  them (`var.get("catalog_sys_id", "")`, `var.get("field", {}).get("type", "")`).
* Python `set`s are modelled as first-occurrence-deduplicated lists
  (`List.dedup`); only membership and cardinality of these sets matter
  to the program.
* Numeric ratio comparisons (`unsupported_vars / total_vars < 0.2`) are
  modelled in exact rational arithmetic.  For every count that a JSON
  export could realistically produce the Python float comparison agrees
  with the exact rational one, since `0.2` rounds to the same double on
  both sides of the comparison.
* A Python `ZeroDivisionError` (the source does not guard its divisions)
  is modelled by `Option`: `none` is the raised exception.
-/

/-- A record of the `catalogs` array of the input document. -/
structure CatalogRecord where
  sys_id : String
  name : String
deriving DecidableEq, Repr

/-- A record of the `variables` array of the input document, reduced to the
two fields the script reads; `""` models a missing field. -/
structure VariableRecord where
  catalog_sys_id : String
  field_type : String
deriving DecidableEq, Repr

/-- The parsed input document. -/
structure InputData where
  catalogs : List CatalogRecord
  «variables» : List VariableRecord
deriving DecidableEq, Repr

/-- `SUPPORTED_FIELD_TYPES` of the source. -/
def SUPPORTED_FIELD_TYPES : List String :=
  ["Single Line Text", "Multi Line Text", "Date", "Select Box",
   "Multiple Choice", "Lookup Select Box", "Reference", "List Collector"]

/-- `CONTAINER_FIELD_TYPES` of the source. -/
def CONTAINER_FIELD_TYPES : List String :=
  ["Container Start", "Container End", "Macro", "24", "32", "33"]

/-- `field_type not in SUPPORTED_FIELD_TYPES and field_type not in
CONTAINER_FIELD_TYPES` (lines 80-84 and 122-125 of the source). -/
def isUnsupportedType (ft : String) : Bool :=
  !(SUPPORTED_FIELD_TYPES.contains ft) && !(CONTAINER_FIELD_TYPES.contains ft)

/-- `catalog_ids_with_vars` (lines 65-67): the set of non-empty
`catalog_sys_id` values over all variables, as a deduplicated list. -/
def catalogIdsWithVars (vars : List VariableRecord) : List String :=
  ((vars.filter (fun v => v.catalog_sys_id != "")).map (fun v => v.catalog_sys_id)).dedup

/-- `catalog_var_counts[id]` (lines 112-120): variables of catalog `id`
that carry a field type; the loop skips records with an empty catalog id. -/
def catalog_var_counts (vars : List VariableRecord) (id : String) : Nat :=
  vars.countP (fun v =>
    v.catalog_sys_id != "" && v.catalog_sys_id == id && v.field_type != "")

/-- `catalog_unsupported_counts[id]` (lines 122-126). -/
def catalog_unsupported_counts (vars : List VariableRecord) (id : String) : Nat :=
  vars.countP (fun v =>
    v.catalog_sys_id != "" && v.catalog_sys_id == id && v.field_type != "" &&
      isUnsupportedType v.field_type)

/-- `catalog_unsupported_types[id]` (line 127), a set modelled as a
deduplicated list. -/
def catalog_unsupported_types (vars : List VariableRecord) (id : String) : List String :=
  ((vars.filter (fun v =>
      v.catalog_sys_id != "" && v.catalog_sys_id == id && v.field_type != "" &&
        isUnsupportedType v.field_type)).map (fun v => v.field_type)).dedup

/-- `all_field_types` (lines 73-79): the distinct non-empty field-type
labels, in order of first occurrence. -/
def all_field_types (vars : List VariableRecord) : List String :=
  ((vars.filter (fun v => v.field_type != "")).map (fun v => v.field_type)).dedup

/-- `unsupported_field_types` (lines 74-84). -/
def unsupported_field_types (vars : List VariableRecord) : List String :=
  ((vars.filter (fun v => v.field_type != "" && isUnsupportedType v.field_type)).map
    (fun v => v.field_type)).dedup

/-- The three compatibility verdicts of lines 139-147. -/
inductive Verdict where
  | fullyCompatible
  | partiallyCompatible
  | problematic
deriving DecidableEq, Repr

/-- The verdict branch of lines 139-147.  `none` models the
`ZeroDivisionError` Python would raise in `unsupported_vars / total_vars`
when `total_vars == 0` (that branch is only reached when
`unsupported_vars != 0`). -/
def verdictOf (unsupported_vars total_vars : Nat) : Option Verdict :=
  if unsupported_vars = 0 then some Verdict.fullyCompatible
  else if total_vars = 0 then none
  else if (unsupported_vars : ℚ) / (total_vars : ℚ) < 1/5 then some Verdict.partiallyCompatible
  else some Verdict.problematic

/-- The verdict the loop of lines 135-147 derives for catalog `id`. -/
def catalogVerdict (vars : List VariableRecord) (id : String) : Option Verdict :=
  verdictOf (catalog_unsupported_counts vars id) (catalog_var_counts vars id)

/-- One value of the `catalog_compatibility` dict (lines 149-154). -/
structure CompatDetail where
  compatibility : Verdict
  total_vars : Nat
  unsupported_vars : Nat
  unsupported_types : List String
deriving DecidableEq, Repr

/-- The entry lines 135-154 build for catalog `id`; `none` models the
(never-reached) division by zero inside the verdict branch. -/
def compatDetailOf (vars : List VariableRecord) (id : String) : Option CompatDetail :=
  (catalogVerdict vars id).map (fun verdict =>
    { compatibility := verdict
      total_vars := catalog_var_counts vars id
      unsupported_vars := catalog_unsupported_counts vars id
      unsupported_types := catalog_unsupported_types vars id })

/-- The `catalog_compatibility` dict (lines 134-154), as an association
list over the iteration order of `catalog_ids_with_vars`. -/
def catalog_compatibility (vars : List VariableRecord) : List (String × CompatDetail) :=
  (catalogIdsWithVars vars).filterMap (fun id =>
    (compatDetailOf vars id).map (fun d => (id, d)))

/-- The `fully_compatible` counter of lines 130 and 141. -/
def fully_compatible_tally (vars : List VariableRecord) : Nat :=
  (catalog_compatibility vars).countP (fun e => e.2.compatibility == Verdict.fullyCompatible)

/-- The `partially_compatible` counter of lines 131 and 144. -/
def partially_compatible_tally (vars : List VariableRecord) : Nat :=
  (catalog_compatibility vars).countP (fun e => e.2.compatibility == Verdict.partiallyCompatible)

/-- The `problematic` counter of lines 132 and 147. -/
def problematic_tally (vars : List VariableRecord) : Nat :=
  (catalog_compatibility vars).countP (fun e => e.2.compatibility == Verdict.problematic)

/-- `field_type_counter[ft]` (lines 199-203): a `Counter` returns 0 for a
label never added, and the loop adds only non-empty labels. -/
def field_type_counter (vars : List VariableRecord) (ft : String) : Nat :=
  if ft = "" then 0 else vars.countP (fun v => v.field_type == ft)

/-- `sum(field_type_counter.values())` (line 206): the counter's keys are
the distinct non-empty labels in order of first insertion. -/
def total_fields (vars : List VariableRecord) : Nat :=
  ((all_field_types vars).map (field_type_counter vars)).sum

/-- `supported_count` (line 220). -/
def supported_count (vars : List VariableRecord) : Nat :=
  (SUPPORTED_FIELD_TYPES.map (field_type_counter vars)).sum

/-- `container_count` (line 221). -/
def container_count (vars : List VariableRecord) : Nat :=
  (CONTAINER_FIELD_TYPES.map (field_type_counter vars)).sum

/-- `unsupported_count` (line 222), an arbitrary-precision integer
difference as in Python. -/
def unsupported_count (vars : List VariableRecord) : Int :=
  (total_fields vars : Int) - (supported_count vars : Int) - (container_count vars : Int)

/-- The sort key of line 180: `unsupported_vars / total_vars`, in exact
rational arithmetic. -/
def ratioOf (d : CompatDetail) : ℚ :=
  (d.unsupported_vars : ℚ) / (d.total_vars : ℚ)

/-- Descending order on the unsupported ratio, the comparison of
`problematic_catalogs.sort(..., reverse=True)` (lines 179-181). -/
def ratioDesc (a b : String × CompatDetail) : Prop :=
  ratioOf b.2 ≤ ratioOf a.2

instance : DecidableRel ratioDesc := fun a b =>
  inferInstanceAs (Decidable (ratioOf b.2 ≤ ratioOf a.2))

instance : IsTotal (String × CompatDetail) ratioDesc :=
  ⟨fun a b => le_total (ratioOf b.2) (ratioOf a.2)⟩

instance : IsTrans (String × CompatDetail) ratioDesc :=
  ⟨fun _ _ _ h1 h2 => le_trans h2 h1⟩

/-- `problematic_catalogs` after the sort of lines 172-181: the catalogs
whose verdict is Problematic, in descending order of unsupported ratio
(a stable comparison sort, as Python's). -/
def problematic_catalogs (vars : List VariableRecord) : List (String × CompatDetail) :=
  List.insertionSort ratioDesc
    ((catalog_compatibility vars).filter (fun e => e.2.compatibility == Verdict.problematic))

/-- `problematic_catalogs[:10]` (line 187). -/
def top_problematic_catalogs (vars : List VariableRecord) : List (String × CompatDetail) :=
  (problematic_catalogs vars).take 10

/-- Descending order on the count, the comparison behind
`Counter.most_common()` (line 207). -/
def freqDesc (a b : String × Nat) : Prop :=
  b.2 ≤ a.2

instance : DecidableRel freqDesc := fun a b =>
  inferInstanceAs (Decidable (b.2 ≤ a.2))

instance : IsTotal (String × Nat) freqDesc :=
  ⟨fun a b => le_total b.2 a.2⟩

instance : IsTrans (String × Nat) freqDesc :=
  ⟨fun _ _ _ h1 h2 => le_trans h2 h1⟩

/-- `field_type_counter.most_common()` (lines 207 and 259-261): the
counter's (label, count) pairs sorted by descending count with a stable
sort. -/
def field_frequencies (vars : List VariableRecord) : List (String × Nat) :=
  List.insertionSort freqDesc
    ((all_field_types vars).map (fun ft => (ft, field_type_counter vars ft)))

/-- The `summary` object of the JSON report (lines 242-252).  All Python
numbers here are arbitrary-precision integers. -/
structure Summary where
  total_catalogs : Int
  catalogs_with_variables : Int
  fully_compatible : Int
  partially_compatible : Int
  problematic : Int
  supported_fields : Int
  container_fields : Int
  unsupported_fields : Int
  total_fields : Int
deriving DecidableEq, Repr

/-- The summary counts the aggregation computes in memory. -/
def computedSummary (d : InputData) : Summary where
  total_catalogs := d.catalogs.length
  catalogs_with_variables := (catalogIdsWithVars d.«variables»).length
  fully_compatible := fully_compatible_tally d.«variables»
  partially_compatible := partially_compatible_tally d.«variables»
  problematic := problematic_tally d.«variables»
  supported_fields := supported_count d.«variables»
  container_fields := container_count d.«variables»
  unsupported_fields := unsupported_count d.«variables»
  total_fields := total_fields d.«variables»

/-- The JSON values `json.dump` writes (line 240): numbers here are
Python ints, objects keep insertion order. -/
inductive Json where
  | num : Int → Json
  | str : String → Json
  | arr : List Json → Json
  | obj : List (String × Json) → Json

/-- Key lookup in a JSON object, as `json.load` rebuilds a dict (the
report's keys are distinct, so first match is the dict entry). -/
def lookupKey : List (String × Json) → String → Option Json
  | [], _ => none
  | (k, v) :: rest, key => if k = key then some v else lookupKey rest key

/-- Read an integer JSON value. -/
def getNum : Option Json → Option Int
  | some (Json.num n) => some n
  | _ => none

/-- The compatibility strings of lines 140, 143 and 146. -/
def Verdict.label : Verdict → String
  | Verdict.fullyCompatible => "Fully Compatible"
  | Verdict.partiallyCompatible => "Partially Compatible"
  | Verdict.problematic => "Problematic"

/-- Serialization of the `summary` object (lines 242-252). -/
def summaryToJson (s : Summary) : Json :=
  Json.obj [("total_catalogs", Json.num s.total_catalogs),
            ("catalogs_with_variables", Json.num s.catalogs_with_variables),
            ("fully_compatible", Json.num s.fully_compatible),
            ("partially_compatible", Json.num s.partially_compatible),
            ("problematic", Json.num s.problematic),
            ("supported_fields", Json.num s.supported_fields),
            ("container_fields", Json.num s.container_fields),
            ("unsupported_fields", Json.num s.unsupported_fields),
            ("total_fields", Json.num s.total_fields)]

/-- Serialization of one `catalog_compatibility` value (lines 149-154). -/
def compatDetailToJson (d : CompatDetail) : Json :=
  Json.obj [("compatibility", Json.str d.compatibility.label),
            ("total_vars", Json.num d.total_vars),
            ("unsupported_vars", Json.num d.unsupported_vars),
            ("unsupported_types", Json.arr (d.unsupported_types.map Json.str))]

/-- The whole JSON report of lines 239-266. -/
def reportJson (d : InputData) : Json :=
  Json.obj
    [("summary", summaryToJson (computedSummary d)),
     ("field_types", Json.obj
        [("all", Json.arr ((List.insertionSort (fun a b => a ≤ b)
            (all_field_types d.«variables»)).map Json.str)),
         ("supported", Json.arr (SUPPORTED_FIELD_TYPES.map Json.str)),
         ("container", Json.arr (CONTAINER_FIELD_TYPES.map Json.str)),
         ("unsupported", Json.arr ((List.insertionSort (fun a b => a ≤ b)
            (unsupported_field_types d.«variables»)).map Json.str))]),
     ("field_frequencies", Json.obj
        ((field_frequencies d.«variables»).map (fun e => (e.1, Json.num (e.2 : Int))))),
     ("catalog_compatibility", Json.obj
        ((catalog_compatibility d.«variables»).map (fun e => (e.1, compatDetailToJson e.2))))]

/-- Reading the summary counts back from a parsed report, as `json.load`
would surface them. -/
def parseSummary (j : Json) : Option Summary :=
  match j with
  | Json.obj entries =>
    match lookupKey entries "summary" with
    | some (Json.obj s) =>
      match getNum (lookupKey s "total_catalogs"), getNum (lookupKey s "catalogs_with_variables"),
            getNum (lookupKey s "fully_compatible"), getNum (lookupKey s "partially_compatible"),
            getNum (lookupKey s "problematic"), getNum (lookupKey s "supported_fields"),
            getNum (lookupKey s "container_fields"), getNum (lookupKey s "unsupported_fields"),
            getNum (lookupKey s "total_fields") with
      | some a, some b, some c, some d, some e, some f, some g, some h, some i =>
        some ⟨a, b, c, d, e, f, g, h, i⟩
      | _, _, _, _, _, _, _, _, _ => none
    | _ => none
  | _ => none

/-- Top-level key access on a parsed report. -/
def getField (j : Json) (key : String) : Option Json :=
  match j with
  | Json.obj entries => lookupKey entries key
  | _ => none

/-- Line 69: `len(catalog_ids_with_vars)/len(catalogs)*100`; `none`
models the `ZeroDivisionError` on an empty catalog list. -/
def catalogs_with_vars_percentage (d : InputData) : Option ℚ :=
  if d.catalogs.length = 0 then none
  else some (((catalogIdsWithVars d.«variables»).length : ℚ) / (d.catalogs.length : ℚ) * 100)

/-- Lines 157-166: the three percentages of the compatibility summary;
`none` models the `ZeroDivisionError` when no catalog has variables. -/
def compatibility_summary_percentages (vars : List VariableRecord) : Option (ℚ × ℚ × ℚ) :=
  if (catalogIdsWithVars vars).length = 0 then none
  else some ((fully_compatible_tally vars : ℚ) / ((catalogIdsWithVars vars).length : ℚ) * 100,
             (partially_compatible_tally vars : ℚ) / ((catalogIdsWithVars vars).length : ℚ) * 100,
             (problematic_tally vars : ℚ) / ((catalogIdsWithVars vars).length : ℚ) * 100)

/-- Lines 224-233: the overall percentages; `none` models the
`ZeroDivisionError` when no variable carries a field type. -/
def overall_percentages (vars : List VariableRecord) : Option (ℚ × ℚ × ℚ) :=
  if total_fields vars = 0 then none
  else some ((supported_count vars : ℚ) / (total_fields vars : ℚ) * 100,
             (container_count vars : ℚ) / (total_fields vars : ℚ) * 100,
             (unsupported_count vars : ℚ) / (total_fields vars : ℚ) * 100)

/-- The run of `analyze_catalog_compatibility()` after a successful
load: `none` models the unhandled `ZeroDivisionError` the source raises
at line 69 (empty catalog list), lines 159-165 (no catalog with
variables) or lines 226-232 (no typed variable); otherwise the run
completes and writes the report. -/
def runReport (d : InputData) : Option Json :=
  if d.catalogs.length = 0 then none
  else if (catalogIdsWithVars d.«variables»).length = 0 then none
  else if total_fields d.«variables» = 0 then none
  else some (reportJson d)

/-- The process exit status: `none` input models a missing or malformed
JSON file (`sys.exit(1)`, lines 48-53); an unhandled exception during
the run also ends the interpreter with status 1; otherwise the script
falls off the end with status 0. -/
def programExit : Option InputData → Nat
  | none => 1
  | some d => if (runReport d).isSome then 0 else 1

/-! ## Helper lemmas -/

/-- Every unsupported variable of a catalog is counted among its
variables. -/
theorem unsupported_le_total (vars : List VariableRecord) (id : String) :
    catalog_unsupported_counts vars id ≤ catalog_var_counts vars id := by
  apply List.countP_mono_left
  intro v _ h
  simp only [Bool.and_eq_true] at h ⊢
  exact h.1

/-- The verdict branch never actually divides by zero: the loop of
lines 135-147 always terminates normally. -/
theorem catalogVerdict_isSome (vars : List VariableRecord) (id : String) :
    (catalogVerdict vars id).isSome := by
  unfold catalogVerdict verdictOf
  by_cases h0 : catalog_unsupported_counts vars id = 0
  · simp [h0]
  · have ht : catalog_var_counts vars id ≠ 0 := by
      have := unsupported_le_total vars id
      omega
    split_ifs <;> simp_all

theorem compatDetailOf_isSome (vars : List VariableRecord) (id : String) :
    (compatDetailOf vars id).isSome := by
  unfold compatDetailOf
  cases h : catalogVerdict vars id
  · have hs := catalogVerdict_isSome vars id
    rw [h] at hs
    simp at hs
  · simp

/-! ## C1: verdict thresholds -/

/-- C1.  For every catalog identifier with at least one counted variable,
the derived verdict is Problematic iff `unsupported_vars / total_vars ≥ 1/5`
(the boundary ratio exactly 1/5 is Problematic), Partially Compatible iff
the ratio is strictly between 0 and 1/5, and Fully Compatible iff
`unsupported_vars = 0`. -/
theorem verdict_iff_ratio (vars : List VariableRecord) (id : String)
    (h : 0 < catalog_var_counts vars id) :
    (catalogVerdict vars id = some Verdict.problematic ↔
      (1 : ℚ)/5 ≤ (catalog_unsupported_counts vars id : ℚ) / (catalog_var_counts vars id : ℚ)) ∧
    (catalogVerdict vars id = some Verdict.partiallyCompatible ↔
      0 < (catalog_unsupported_counts vars id : ℚ) / (catalog_var_counts vars id : ℚ) ∧
      (catalog_unsupported_counts vars id : ℚ) / (catalog_var_counts vars id : ℚ) < 1/5) ∧
    (catalogVerdict vars id = some Verdict.fullyCompatible ↔
      catalog_unsupported_counts vars id = 0) := by
  have htQ : (0 : ℚ) < (catalog_var_counts vars id : ℚ) := by exact_mod_cast h
  by_cases h0 : catalog_unsupported_counts vars id = 0
  · have hratio : (catalog_unsupported_counts vars id : ℚ) /
        (catalog_var_counts vars id : ℚ) = 0 := by
      rw [h0]; simp
    refine ⟨?_, ?_, ?_⟩ <;> simp [catalogVerdict, verdictOf, h0, hratio]
  · have huQ : (0 : ℚ) < (catalog_unsupported_counts vars id : ℚ) := by
      exact_mod_cast Nat.pos_of_ne_zero h0
    have hpos : 0 < (catalog_unsupported_counts vars id : ℚ) /
        (catalog_var_counts vars id : ℚ) := div_pos huQ htQ
    by_cases hr : (catalog_unsupported_counts vars id : ℚ) /
        (catalog_var_counts vars id : ℚ) < (5 : ℚ)⁻¹
    · refine ⟨?_, ?_, ?_⟩ <;>
        simp [catalogVerdict, verdictOf, h0, Nat.pos_iff_ne_zero.mp h, hr, hpos,
          not_le.mpr hr]
    · refine ⟨?_, ?_, ?_⟩ <;>
        simp [catalogVerdict, verdictOf, h0, Nat.pos_iff_ne_zero.mp h, hr, not_lt.mp hr]

/-- C1 witness: a catalog with one supported variable is Fully
Compatible. -/
theorem verdict_iff_ratio_witness :
    catalogVerdict [⟨"c1", "Date"⟩] "c1" = some Verdict.fullyCompatible :=
  ((verdict_iff_ratio [⟨"c1", "Date"⟩] "c1" (by decide)).2.2).mpr (by decide)

/-! ## C10: one verdict per catalog -/

/-- The `catalog_compatibility` association list is keyed exactly by
`catalog_ids_with_vars`, in order. -/
theorem catalog_compatibility_map_fst (vars : List VariableRecord) :
    (catalog_compatibility vars).map Prod.fst = catalogIdsWithVars vars := by
  unfold catalog_compatibility
  induction catalogIdsWithVars vars with
  | nil => rfl
  | cons a l ih =>
    obtain ⟨d, hd⟩ := Option.isSome_iff_exists.mp (compatDetailOf_isSome vars a)
    rw [List.filterMap_cons, hd]
    simpa using ih

/-- Each entry of an association list carries exactly one of the three
verdicts. -/
theorem tally_partition (L : List (String × CompatDetail)) :
    L.countP (fun e => e.2.compatibility == Verdict.fullyCompatible) +
      L.countP (fun e => e.2.compatibility == Verdict.partiallyCompatible) +
      L.countP (fun e => e.2.compatibility == Verdict.problematic) = L.length := by
  induction L with
  | nil => rfl
  | cons e L ih =>
    cases h : e.2.compatibility <;> simp [List.countP_cons, h] <;> omega

/-- C10.  Every catalog-with-variables gets exactly one verdict: the
compatibility map has one entry per distinct catalog identifier appearing
in the variables, and the three verdict tallies sum to the number of
those identifiers. -/
theorem one_verdict_per_catalog (vars : List VariableRecord) :
    (catalog_compatibility vars).map Prod.fst = catalogIdsWithVars vars ∧
    (catalogIdsWithVars vars).Nodup ∧
    fully_compatible_tally vars + partially_compatible_tally vars + problematic_tally vars =
      (catalogIdsWithVars vars).length := by
  refine ⟨catalog_compatibility_map_fst vars, List.nodup_dedup _, ?_⟩
  have hlen : (catalog_compatibility vars).length = (catalogIdsWithVars vars).length := by
    rw [← catalog_compatibility_map_fst vars, List.length_map]
  rw [← hlen]
  exact tally_partition _

/-! ## C9: catalogs whose variables all lack a field type -/

/-- C9.  A catalog identifier that appears only in variables lacking a
field-type label (but with a non-empty catalog reference) is still
counted among catalogs-with-variables, and receives verdict Fully
Compatible with `total_vars = 0` and `unsupported_vars = 0`, the
division never being reached. -/
theorem untyped_only_catalog_fully_compatible (vars : List VariableRecord) (id : String)
    (hne : id ≠ "")
    (href : ∃ v ∈ vars, v.catalog_sys_id = id)
    (hall : ∀ v ∈ vars, v.catalog_sys_id = id → v.field_type = "") :
    id ∈ catalogIdsWithVars vars ∧
    catalog_var_counts vars id = 0 ∧
    catalog_unsupported_counts vars id = 0 ∧
    compatDetailOf vars id = some ⟨Verdict.fullyCompatible, 0, 0, []⟩ := by
  have hvc : catalog_var_counts vars id = 0 := by
    unfold catalog_var_counts
    rw [List.countP_eq_zero]
    intro v hv hp
    simp only [Bool.and_eq_true, bne_iff_ne, beq_iff_eq] at hp
    exact hp.2 (hall v hv hp.1.2)
  have huc : catalog_unsupported_counts vars id = 0 := by
    have := unsupported_le_total vars id
    omega
  have htypes : catalog_unsupported_types vars id = [] := by
    unfold catalog_unsupported_types
    rw [List.dedup_eq_nil, List.map_eq_nil_iff, List.filter_eq_nil_iff]
    intro v hv hp
    simp only [Bool.and_eq_true, bne_iff_ne, beq_iff_eq] at hp
    exact hp.1.2 (hall v hv hp.1.1.2)
  refine ⟨?_, hvc, huc, ?_⟩
  · obtain ⟨v, hv, hvid⟩ := href
    unfold catalogIdsWithVars
    rw [List.mem_dedup, List.mem_map]
    refine ⟨v, List.mem_filter.mpr ⟨hv, ?_⟩, hvid⟩
    rw [bne_iff_ne]
    rw [hvid]
    exact hne
  · simp [compatDetailOf, catalogVerdict, hvc, huc, verdictOf, htypes]

/-- C9 witness: one variable referencing catalog c1 with no field type. -/
theorem untyped_only_catalog_witness :
    "c1" ∈ catalogIdsWithVars [⟨"c1", ""⟩] ∧
    catalog_var_counts [⟨"c1", ""⟩] "c1" = 0 ∧
    catalog_unsupported_counts [⟨"c1", ""⟩] "c1" = 0 ∧
    compatDetailOf [⟨"c1", ""⟩] "c1" = some ⟨Verdict.fullyCompatible, 0, 0, []⟩ :=
  untyped_only_catalog_fully_compatible [⟨"c1", ""⟩] "c1" (by decide) (by decide) (by decide)

/-! ## C2: empty variables list crashes the source -/

/-- C2 (the code at the claimed input).  On a document with one catalog
and an empty `variables` list, the percentage computations of lines
157-166 and 224-233 hit a division by zero — the run is aborted instead
of reporting 0%. -/
theorem empty_variables_divides_by_zero :
    compatibility_summary_percentages ([] : List VariableRecord) = none ∧
    overall_percentages ([] : List VariableRecord) = none ∧
    runReport ⟨[⟨"cat1", "Catalog One"⟩], []⟩ = none ∧
    programExit (some ⟨[⟨"cat1", "Catalog One"⟩], []⟩) = 1 := by
  refine ⟨rfl, rfl, rfl, rfl⟩

/-! ## C6: exit status -/

/-- C6 counterexample.  The claim says a successfully loaded document
exits with status 0; the empty (valid JSON) document `{"catalogs": [],
"variables": []}` loads fine yet the run aborts with a non-zero status
(`ZeroDivisionError` at line 69). -/
theorem loaded_input_nonzero_exit :
    programExit (some (⟨[], []⟩ : InputData)) = 1 := rfl

/-- C6 amended.  A missing or malformed input file exits non-zero; a
loaded document exits 0 exactly when the aggregation completes, i.e.
when the catalog list is non-empty, some variable carries a catalog
reference, and some variable carries a field type; otherwise the
unhandled `ZeroDivisionError` also ends the process non-zero. -/
theorem exit_status_spec :
    programExit none = 1 ∧
    ∀ d : InputData, programExit (some d) = 0 ↔
      (d.catalogs ≠ [] ∧ catalogIdsWithVars d.«variables» ≠ [] ∧
        total_fields d.«variables» ≠ 0) := by
  refine ⟨rfl, fun d => ?_⟩
  have hrun : (runReport d).isSome ↔
      (d.catalogs ≠ [] ∧ catalogIdsWithVars d.«variables» ≠ [] ∧
        total_fields d.«variables» ≠ 0) := by
    unfold runReport
    split_ifs with h1 h2 h3 <;> simp_all [List.length_eq_zero]
  show (if (runReport d).isSome then 0 else 1) = 0 ↔ _
  rw [← hrun]
  split_ifs with h <;> simp [h]

/-! ## C3: which records are skipped where -/

/-- C3 counterexample.  A variable with no catalog reference but with
field type "Date" is *not* skipped by the frequency pass (lines 199-203)
nor by the classification pass (lines 76-84): it raises the "Date"
frequency from 0 to 1 and puts "Date" into the observed type set. -/
theorem missing_catalog_ref_still_counted :
    field_type_counter [⟨"", "Date"⟩] "Date" = 1 ∧
    "Date" ∈ all_field_types [⟨"", "Date"⟩] ∧
    field_type_counter [] "Date" = 0 := by
  refine ⟨rfl, ?_, rfl⟩
  simp [all_field_types, List.filter, List.dedup]

/-- C3 amended.  A variable record missing its field-type label
contributes to no per-catalog count, no frequency count and no
classification set; a record missing its catalog reference contributes
to no per-catalog count and not to `catalog_ids_with_vars`, but it still
feeds the global frequency counter and the classification sets when it
carries a field-type label.  Neither case raises an error (all passes
are total functions). -/
theorem variable_skipping (pre post : List VariableRecord) (v : VariableRecord) :
    (v.field_type = "" →
      catalog_var_counts (pre ++ v :: post) = catalog_var_counts (pre ++ post) ∧
      catalog_unsupported_counts (pre ++ v :: post) = catalog_unsupported_counts (pre ++ post) ∧
      catalog_unsupported_types (pre ++ v :: post) = catalog_unsupported_types (pre ++ post) ∧
      field_type_counter (pre ++ v :: post) = field_type_counter (pre ++ post) ∧
      all_field_types (pre ++ v :: post) = all_field_types (pre ++ post) ∧
      unsupported_field_types (pre ++ v :: post) = unsupported_field_types (pre ++ post)) ∧
    (v.catalog_sys_id = "" →
      catalogIdsWithVars (pre ++ v :: post) = catalogIdsWithVars (pre ++ post) ∧
      catalog_var_counts (pre ++ v :: post) = catalog_var_counts (pre ++ post) ∧
      catalog_unsupported_counts (pre ++ v :: post) = catalog_unsupported_counts (pre ++ post) ∧
      catalog_unsupported_types (pre ++ v :: post) = catalog_unsupported_types (pre ++ post)) := by
  constructor
  · intro hv
    refine ⟨funext fun id => ?_, funext fun id => ?_, funext fun id => ?_,
      funext fun ft => ?_, ?_, ?_⟩
    · simp [catalog_var_counts, List.countP_append, List.countP_cons, hv]
    · simp [catalog_unsupported_counts, List.countP_append, List.countP_cons, hv]
    · simp [catalog_unsupported_types, List.filter_append, List.filter_cons, hv]
    · by_cases hft : ft = ""
      · simp [field_type_counter, hft]
      · have hne : (v.field_type == ft) = false := by
          rw [beq_eq_false_iff_ne, hv]
          exact fun h => hft h.symm
        simp [field_type_counter, hft, List.countP_append, List.countP_cons, hne]
    · simp [all_field_types, List.filter_append, List.filter_cons, hv]
    · simp [unsupported_field_types, List.filter_append, List.filter_cons, hv]
  · intro hv
    refine ⟨?_, funext fun id => ?_, funext fun id => ?_, funext fun id => ?_⟩
    · simp [catalogIdsWithVars, List.filter_append, List.filter_cons, hv]
    · simp [catalog_var_counts, List.countP_append, List.countP_cons, hv]
    · simp [catalog_unsupported_counts, List.countP_append, List.countP_cons, hv]
    · simp [catalog_unsupported_types, List.filter_append, List.filter_cons, hv]

/-! ## C4: field counts partition the total -/

/-- The sum of the counter's values (line 206) is the number of
variables carrying a field type. -/
theorem total_fields_eq_countP (vars : List VariableRecord) :
    total_fields vars = vars.countP (fun v => v.field_type != "") := by
  unfold total_fields all_field_types
  set l := (vars.filter (fun v => v.field_type != "")).map (fun v => v.field_type) with hl
  have hcong : l.dedup.map (field_type_counter vars) = l.dedup.map (fun ft => l.count ft) := by
    apply List.map_congr_left
    intro ft hft
    have hmem : ft ∈ l := List.mem_dedup.mp hft
    have hne : ft ≠ "" := by
      rw [hl] at hmem
      obtain ⟨v, hv, hveq⟩ := List.mem_map.mp hmem
      have hv2 := (List.mem_filter.mp hv).2
      rw [← hveq]
      simpa [bne_iff_ne] using hv2
    rw [field_type_counter, if_neg hne, hl, List.count_eq_countP, List.countP_map,
      List.countP_filter]
    apply List.countP_congr
    intro v _
    simp only [Function.comp_apply, Bool.and_eq_true, beq_iff_eq, bne_iff_ne]
    constructor
    · intro hv
      refine ⟨hv, ?_⟩
      rw [hv]
      exact hne
    · exact fun h => h.1
  rw [hcong, List.sum_map_count_dedup_eq_length, hl, List.length_map,
    ← List.countP_eq_length_filter]

/-- C4.  `supported_count + container_count + unsupported_count ==
total_fields`, with `total_fields` equal to the number of variables
carrying a non-empty field-type label. -/
theorem field_count_partition (vars : List VariableRecord) :
    total_fields vars = vars.countP (fun v => v.field_type != "") ∧
    (supported_count vars : Int) + (container_count vars : Int) + unsupported_count vars =
      ((vars.countP (fun v => v.field_type != "") : Nat) : Int) := by
  have h := total_fields_eq_countP vars
  refine ⟨h, ?_⟩
  unfold unsupported_count
  rw [h]
  ring

/-! ## C5: the top-problematic listing -/

/-- C5.  The problematic-catalogs listing is the first 10 entries of the
list of exactly those compatibility entries whose verdict is
Problematic, sorted by `unsupported_vars / total_vars` in descending
order (ties in the incidental order of iteration). -/
theorem problematic_listing_spec (vars : List VariableRecord) :
    top_problematic_catalogs vars = (problematic_catalogs vars).take 10 ∧
    (top_problematic_catalogs vars).length ≤ 10 ∧
    (∀ e : String × CompatDetail, e ∈ problematic_catalogs vars ↔
      (e ∈ catalog_compatibility vars ∧ e.2.compatibility = Verdict.problematic)) ∧
    (problematic_catalogs vars).Sorted ratioDesc := by
  refine ⟨rfl, ?_, ?_, List.sorted_insertionSort ratioDesc _⟩
  · rw [top_problematic_catalogs, List.length_take]
    exact min_le_left _ _
  · intro e
    unfold problematic_catalogs
    rw [(List.perm_insertionSort ratioDesc _).mem_iff, List.mem_filter]
    simp only [beq_iff_eq]

/-! ## C7: the field-type frequency table -/

/-- C7.  The frequency table pairs every observed non-empty field-type
label with its number of occurrences across all variables, is sorted by
descending count (ties in incidental order), and is what the JSON
report stores under `field_frequencies`. -/
theorem field_frequencies_spec (vars : List VariableRecord) :
    (∀ p : String × Nat, p ∈ field_frequencies vars ↔
      (p.1 ∈ all_field_types vars ∧ p.2 = field_type_counter vars p.1)) ∧
    (∀ ft : String, ft ∈ all_field_types vars ↔
      (ft ≠ "" ∧ 0 < vars.countP (fun v => v.field_type == ft))) ∧
    (∀ ft : String, ft ≠ "" →
      field_type_counter vars ft = vars.countP (fun v => v.field_type == ft)) ∧
    (field_frequencies vars).Sorted freqDesc ∧
    ∀ cats : List CatalogRecord,
      getField (reportJson ⟨cats, vars⟩) "field_frequencies" =
        some (Json.obj ((field_frequencies vars).map (fun e => (e.1, Json.num (e.2 : Int))))) := by
  refine ⟨?_, ?_, ?_, List.sorted_insertionSort freqDesc _, fun cats => rfl⟩
  · intro p
    obtain ⟨a, b⟩ := p
    unfold field_frequencies
    rw [(List.perm_insertionSort freqDesc _).mem_iff, List.mem_map]
    constructor
    · rintro ⟨ft, hft, heq⟩
      rw [Prod.mk.injEq] at heq
      obtain ⟨h1, h2⟩ := heq
      subst h1
      exact ⟨hft, h2.symm⟩
    · rintro ⟨h1, h2⟩
      have h2' : b = field_type_counter vars a := h2
      exact ⟨a, h1, by rw [h2']⟩
  · intro ft
    unfold all_field_types
    rw [List.mem_dedup, List.mem_map]
    constructor
    · rintro ⟨v, hv, rfl⟩
      obtain ⟨hvmem, hvt⟩ := List.mem_filter.mp hv
      refine ⟨by simpa [bne_iff_ne] using hvt, ?_⟩
      rw [List.countP_pos_iff]
      exact ⟨v, hvmem, by simp⟩
    · rintro ⟨hne, hpos⟩
      obtain ⟨v, hv, hvft⟩ := List.countP_pos_iff.mp hpos
      have hveq : v.field_type = ft := by simpa using hvft
      refine ⟨v, List.mem_filter.mpr ⟨hv, ?_⟩, hveq⟩
      rw [bne_iff_ne, hveq]
      exact hne
  · intro ft hne
    rw [field_type_counter, if_neg hne]

/-! ## C8: summary counts survive the JSON round trip -/

/-- C8.  Serializing the report and parsing the summary back yields the
in-memory aggregation counts unchanged. -/
theorem report_summary_roundtrip (d : InputData) :
    parseSummary (reportJson d) = some (computedSummary d) := rfl
